import Mathlib

/-!
Verification development for the claude-bus gate validation and workflow
orchestration engine (`.claude-bus/scripts/`).

The Python sources are shallowly embedded as follows.

* Pure list/string logic (error accumulation, table lookups, counting,
  duplicate detection, message construction) is translated directly.
* The regex layer of `gate_validators.py` is modelled structurally: each
  `check_*` function receives the data its regexes would extract (table rows
  as `(name, value)` pairs, captured fields as `Option`s, substring hits as
  `Bool`s).  The raw-text section slicing of `re.search(header...next)` is
  embedded on character lists in `sectionSlice`.
* Filesystem / clock / subprocess facts (file existence, sizes, timestamp
  comparisons, collaborator results) are inputs: structures `FileState`,
  `TimeFacts`, `WfEnv` carry the outcome of each external probe, and the
  embedded control flow consumes them exactly as the source does.
-/

/- ===================== gate_config.py ===================== -/

def MIN_SUMMARY_LENGTH : Nat := 50

def MAX_FILE_SIZE : Nat := 1000000

def REQUIRED_AGENTS : List String :=
  ["Backend-Agent", "Frontend-Agent", "QA-Agent", "Document-RAG-Agent",
   "Super-AI-UltraThink-Agent", "frontend-debug-agent"]

def REQUIRED_SECTIONS : List String :=
  ["Section 1: Agent Invocation Evidence",
   "Section 2: Agent Responses",
   "Section 3: Consolidated Checklist",
   "Section 4: Unresolved Issues",
   "Section 5: Sign-offs",
   "Section 6: Gate Decision",
   "Section 7: Validation"]

def VALID_AGENT_STATUSES : List String := ["OK", "CONCERN", "QUESTION", "STANDBY"]

def VALID_GATE_DECISIONS : List String := ["PASS", "FAIL", "CONDITIONAL"]

def VALID_SIGNOFF_VALUES : List String := ["APPROVED", "REJECTED", "CONDITIONAL", "N/A"]

/-- Python dataclass `ValidationResult` (gate_config.py). -/
structure ValidationResult where
  valid : Bool
  errors : List String := []
  warnings : List String := []
  info : List String := []
deriving Repr, DecidableEq

def addError (r : ValidationResult) (e : String) : ValidationResult :=
  { r with errors := r.errors ++ [e] }

def addWarning (r : ValidationResult) (w : String) : ValidationResult :=
  { r with warnings := r.warnings ++ [w] }

def addInfo (r : ValidationResult) (i : String) : ValidationResult :=
  { r with info := r.info ++ [i] }

/-- Index of the first occurrence of `pat` as a contiguous sublist of `l`. -/
def firstIdx : List Char → List Char → Option Nat
  | l, pat =>
    if pat.isPrefixOf l then some 0
    else
      match l with
      | [] => none
      | _ :: cs => (firstIdx cs pat).map (· + 1)

/-- Python `pat in s` substring test, on the underlying character lists. -/
def strContains (s pat : String) : Bool :=
  (firstIdx s.data pat.data).isSome

/-- Whitespace in the sense of Python `str.strip()`. -/
def isPyWhitespace (c : Char) : Bool :=
  c == ' ' || c == '\t' || c == '\n' || c == '\r' || c == '\x0b' || c == '\x0c'

/-- Python `s.strip()`, on the underlying character list. -/
def pyStrip (s : String) : String :=
  String.mk (((s.data.dropWhile isPyWhitespace).reverse.dropWhile isPyWhitespace).reverse)

/-- Python `s[:n]`, on the underlying character list. -/
def pyTake (s : String) (n : Nat) : String :=
  String.mk (s.data.take n)

/- ===================== read_file (gate_validators.py 32-51) ===================== -/

/-- Filesystem facts about the gate record file: whether the path exists, its
size in bytes, whether its bytes decode as UTF-8, and the decoded text. -/
structure FileState where
  onDisk : Bool
  size : Nat
  utf8Valid : Bool
  content : String

/-- Embedding of `read_file`: the `raise` branches become `Except.error` with
the message built by the source (the UTF-8 branch's message carries the
decoder exception text in the source; that environment-dependent suffix is
omitted here). -/
def read_file (file_path : String) (fs : FileState) : Except String String :=
  if ¬ fs.onDisk then
    .error ("Gate record not found: " ++ file_path)
  else if fs.size > MAX_FILE_SIZE then
    .error ("File too large: " ++ toString fs.size ++ " bytes (max " ++ toString MAX_FILE_SIZE ++ ")")
  else if ¬ fs.utf8Valid then
    .error ("File encoding error: " ++ file_path ++ " is not valid UTF-8.")
  else if pyStrip fs.content == "" then
    .error ("Gate record file is empty: " ++ file_path)
  else
    .ok fs.content

/- ===================== section slicing (re.search over the raw text) =====================

`check_agent_invocation` and friends extract a section with
`re.search(r"## Section N: ....*?(?=## Section N+1:|$)", content, re.DOTALL)`:
the match starts at the first occurrence of the header text and lazily extends
to just before the next header (or to the end; `$` also matches before a final
newline).  `sectionSlice` reproduces that on character lists; it is `none`
exactly when the header does not occur. -/

/-- The text matched by `re.search(header ++ lazy-any ++ lookahead(next or end), DOTALL)`:
`none` when `header` does not occur in `content`. -/
def sectionSlice (content header next : String) : Option String :=
  match firstIdx content.data header.data with
  | none => none
  | some i =>
    let tail := content.data.drop (i + header.data.length)
    let body :=
      match firstIdx tail next.data with
      | some j => tail.take j
      | none => if tail.getLast? == some '\n' then tail.dropLast else tail
    some (String.mk (header.data ++ body))

/-- Spec-modelled section extractor, following the spec's words (section 4.1):
for each header it returns the substring from the header to the next header or
end of document, and "a header not found yields \x22missing\x22 (not an empty
string)".  This definition follows the spec, to be compared with
`sectionSlice`, which follows the source. -/
def extract_section_spec (content header next : String) : String :=
  match sectionSlice content header next with
  | some s => s
  | none => "missing"

/- ===================== check_required_sections (58-67) ===================== -/

def missingSectionMsg (sec : String) : String :=
  "Missing required section: \x27" ++ sec ++ "\x27. " ++
    "Copy from template: .claude-bus/templates/gate-validation-template.md"

def check_required_sections (content : String) (res : ValidationResult) : ValidationResult :=
  REQUIRED_SECTIONS.foldl
    (fun r sec =>
      if strContains content sec then
        addInfo r ("Found section: \x27" ++ sec ++ "\x27")
      else
        addError r (missingSectionMsg sec))
    res

/- ===================== check_metadata (70-98) =====================

The regex-extracted metadata fields are inputs: `stage`/`phase` are `some n`
iff `**Stage**:/​**Phase**: \d+` matched (capturing `n`), `gateType` is the
captured `Input`/`Output` alternative, `dateStr` the captured `YYYY-MM-DD`
text.  `dateParses` is the outcome of `datetime.strptime`, and
`dateOverYearFuture` of the comparison against `now` plus one year;
`statusFieldOk` is whether the Status regex matched. -/

structure MetaFacts where
  stage : Option Nat
  phase : Option Nat
  gateType : Option String
  dateStr : Option String
  dateParses : Bool
  dateOverYearFuture : Bool
  statusFieldOk : Bool
deriving Repr, DecidableEq

def check_metadata (m : MetaFacts) (res : ValidationResult) : ValidationResult :=
  let r1 :=
    if m.stage.isNone then
      addError res ("Missing or invalid Stage number. Add: **Stage**: N")
    else res
  let r2 :=
    if m.phase.isNone then
      addError r1 ("Missing or invalid Phase number. Add: **Phase**: N")
    else r1
  let r3 :=
    if m.gateType.isNone then
      addError r2 ("Missing or invalid Gate Type. Add: **Gate Type**: Input or Output")
    else r2
  let r4 :=
    match m.dateStr with
    | none => addError r3 ("Missing or invalid Date. Add: **Date**: YYYY-MM-DD")
    | some d =>
      if m.dateParses then
        if m.dateOverYearFuture then
          addWarning r3 ("Date " ++ d ++ " is more than 1 year in future")
        else r3
      else addError r3 ("Invalid date format: " ++ d)
  if ¬ m.statusFieldOk then
    addError r4 ("Missing or invalid Status. Add: **Status**: PENDING, PASS, or FAIL")
  else r4

/- ===================== check_agent_invocation (101-143) =====================

The structured view of the Section 1 slice: `timestamp` is the captured
`**Invocation Timestamp**` group (when its regex matched), `timestampValid`
the outcome of `datetime.fromisoformat` on it, `rows` the invocation-table
rows `| name | YES/NO |` in order (`true` = YES), and `uncheckedBoxes` the
`section.count("[ ]")` value. -/

structure Sec1 where
  timestamp : Option String
  timestampValid : Bool
  rows : List (String × Bool)
  uncheckedBoxes : Nat
deriving Repr, DecidableEq

/-- First `| agent | YES/NO |` row for `agent`, as found by `re.search`. -/
def lookupRow (rows : List (String × Bool)) (agent : String) : Option Bool :=
  (rows.find? (fun r => r.1 == agent)).map (·.2)

def notListedMsg (agent : String) : String :=
  "Agent \x27" ++ agent ++ "\x27 not listed in invocation table"

def blockingMsg (n : Nat) : String :=
  "BLOCKING: Only " ++ toString n ++ "/6 agents invoked. G-001 requires ALL 6."

/-- Body of the per-agent loop of `check_agent_invocation`: count a YES row,
ignore a NO row, report an agent with no row. -/
def invocationStep (rows : List (String × Bool)) (acc : Nat × ValidationResult)
    (agent : String) : Nat × ValidationResult :=
  match lookupRow rows agent with
  | some true => (acc.1 + 1, acc.2)
  | some false => acc
  | none => (acc.1, addError acc.2 (notListedMsg agent))

/-- The per-agent loop of `check_agent_invocation`: counts YES rows and
reports agents with no row. -/
def invocationScan (agents : List String) (rows : List (String × Bool))
    (res : ValidationResult) : Nat × ValidationResult :=
  agents.foldl (invocationStep rows) (0, res)

/-- Number of required agents whose invocation-table row is marked YES. -/
def invokedCount (rows : List (String × Bool)) : Nat :=
  (REQUIRED_AGENTS.filter (fun a => lookupRow rows a == some true)).length

def check_agent_invocation (sec1 : Option Sec1) (res : ValidationResult) : ValidationResult :=
  match sec1 with
  | none => addError res ("Cannot parse Section 1: Agent Invocation Evidence")
  | some s =>
    let r1 :=
      match s.timestamp with
      | none => addError res ("Missing Invocation Timestamp. Add: **Invocation Timestamp**: ISO 8601")
      | some t =>
        if s.timestampValid then res
        else addError res ("Invalid timestamp format: " ++ t)
    let scan := invocationScan REQUIRED_AGENTS s.rows r1
    let r2 := if scan.1 < 6 then addError scan.2 (blockingMsg scan.1) else scan.2
    if s.uncheckedBoxes > 0 then
      addError r2 ("Unchecked verification items in Section 1 (" ++ toString s.uncheckedBoxes ++ " items)")
    else r2

/- ===================== check_agent_responses (146-192) ===================== -/

/-- Structured view of one `### <agent> Response` block: the captured
`**Status**` word and the captured `**Summary**` text (the source strips it
before use). -/
structure RespBlock where
  status : Option String
  summary : Option String
deriving Repr, DecidableEq

def lookupResp (blocks : List (String × RespBlock)) (agent : String) : Option RespBlock :=
  (blocks.find? (fun b => b.1 == agent)).map (·.2)

def check_agent_responses (sec2 : Option (List (String × RespBlock)))
    (res : ValidationResult) : ValidationResult × List String :=
  match sec2 with
  | none => (addError res ("Cannot parse Section 2: Agent Responses"), [])
  | some blocks =>
    REQUIRED_AGENTS.foldl
      (fun acc agent =>
        match lookupResp blocks agent with
        | none => (addError acc.1 ("Missing response section for \x27" ++ agent ++ "\x27"), acc.2)
        | some b =>
          let st :=
            match b.status with
            | none => (addError acc.1 ("Missing Status for \x27" ++ agent ++ "\x27"), acc.2)
            | some v =>
              if ¬ VALID_AGENT_STATUSES.contains v then
                (addError acc.1 ("Invalid Status \x27" ++ v ++ "\x27 for \x27" ++ agent ++ "\x27"), acc.2)
              else if v == "CONCERN" || v == "QUESTION" then
                (acc.1, acc.2 ++ [agent])
              else acc
          match b.summary with
          | some raw =>
            let summ := pyStrip raw
            if strContains summ "[REQUIRED" then
              (addError st.1 ("\x27" ++ agent ++ "\x27 summary contains unfilled placeholder"), st.2)
            else if summ.length < MIN_SUMMARY_LENGTH then
              (addWarning st.1 ("\x27" ++ agent ++ "\x27 summary too short (" ++ toString summ.length ++ " chars)"), st.2)
            else st
          | none => (addError st.1 ("Missing Summary for \x27" ++ agent ++ "\x27"), st.2))
      (res, [])

/- ===================== check_consolidated_checklist (195-220) ===================== -/

/-- Structured view of the Section 3 slice: the texts of the 5-column table
rows matched by the row regex, and whether `**Total Items**: \d+` matched. -/
structure Sec3 where
  rows : List String
  hasTotalItems : Bool
deriving Repr, DecidableEq

def check_consolidated_checklist (sec3 : Option Sec3) (res : ValidationResult) : ValidationResult :=
  match sec3 with
  | none => addError res ("Cannot parse Section 3: Consolidated Checklist")
  | some s =>
    let r1 :=
      if s.rows.isEmpty then
        addWarning res ("No checklist items found in Section 3")
      else
        let start := addInfo res ("Found " ++ toString s.rows.length ++ " checklist items")
        (s.rows.foldl
          (fun acc row =>
            let r := if strContains row "[REQUIRED]" then
                addError acc.2 ("Checklist item #" ++ toString acc.1 ++ " contains unfilled placeholder")
              else acc.2
            let hasValidSource := REQUIRED_AGENTS.any (fun agent => strContains row agent)
            let r := if ¬ hasValidSource && ¬ strContains row "PM-Architect" then
                addWarning r ("Checklist item #" ++ toString acc.1 ++ " may be missing source agent")
              else r
            (acc.1 + 1, r))
          (1, start)).2
    if ¬ s.hasTotalItems then addError r1 ("Missing Total Items count") else r1

/- ===================== check_unresolved_issues (223-239) ===================== -/

/-- Structured view of the Section 4 slice: how many 5-column issue rows its
row regex finds, and whether the text "None" occurs in the slice. -/
structure Sec4 where
  issueRows : Nat
  hasNoneText : Bool
deriving Repr, DecidableEq

def check_unresolved_issues (sec4 : Option Sec4) (hasConcerns : Bool)
    (res : ValidationResult) : ValidationResult :=
  match sec4 with
  | none => addError res ("Cannot parse Section 4: Unresolved Issues")
  | some s =>
    let hasIssues := s.issueRows > 0 || s.hasNoneText
    if hasConcerns && ¬ hasIssues then
      addError res ("Agents raised CONCERN/QUESTION but Section 4 has no issues listed")
    else res

/- ===================== check_signoffs (242-265) ===================== -/

/-- Structured view of the Section 5 slice: the sign-off table rows as
`(name, value)` pairs (both cells trimmed). -/
structure Sec5 where
  rows : List (String × String)
deriving Repr, DecidableEq

/-- Whether a `| name | value |` row with `value` among `values` occurs:
the source's per-agent `re.search` with a value alternation. -/
def hasSignRow (rows : List (String × String)) (name : String) (values : List String) : Bool :=
  rows.any (fun r => r.1 == name && values.contains r.2)

def check_signoffs (sec5 : Option Sec5) (res : ValidationResult) : ValidationResult :=
  match sec5 with
  | none => addError res ("Cannot parse Section 5: Sign-offs")
  | some s =>
    let r1 :=
      if ¬ hasSignRow s.rows "PM-Architect-Agent" ["APPROVED", "REJECTED", "CONDITIONAL"] then
        addError res ("PM-Architect-Agent sign-off missing or invalid")
      else res
    REQUIRED_AGENTS.foldl
      (fun r agent =>
        if ¬ hasSignRow s.rows agent VALID_SIGNOFF_VALUES then
          addError r ("\x27" ++ agent ++ "\x27 sign-off missing or invalid")
        else r)
      r1

/- ===================== check_gate_decision (268-294) ===================== -/

/-- Structured view of the Section 6 slice: the captured `**Decision**` word
and whether the "Blocking Issues" / "Conditions" markers occur in the slice. -/
structure Sec6 where
  decision : Option String
  hasBlockingIssuesText : Bool
  hasConditionsText : Bool
deriving Repr, DecidableEq

def inconsistencyMsg : String :=
  "INCONSISTENCY: Decision is PASS but PM-Architect signed REJECTED"

/-- Embedding of `check_gate_decision`.  `pmRejected` is whether the
`| PM-Architect-Agent | REJECTED |` regex matches anywhere in the whole
document (the source searches `content`, not the slice). -/
def check_gate_decision (sec6 : Option Sec6) (pmRejected : Bool)
    (res : ValidationResult) : ValidationResult :=
  match sec6 with
  | none => addError res ("Cannot parse Section 6: Gate Decision")
  | some s =>
    match s.decision with
    | none => addError res ("Missing Gate Decision. Add: **Decision**: PASS, FAIL, or CONDITIONAL")
    | some d =>
      if ¬ VALID_GATE_DECISIONS.contains d then
        addError res ("Invalid Decision \x27" ++ d ++ "\x27")
      else
        let r1 :=
          if d == "PASS" && pmRejected then addError res inconsistencyMsg else res
        let r2 :=
          if d == "FAIL" && ¬ s.hasBlockingIssuesText then
            addWarning r1 ("Decision is FAIL but no Blocking Issues documented")
          else r1
        if d == "CONDITIONAL" && ¬ s.hasConditionsText then
          addWarning r2 ("Decision is CONDITIONAL but no Conditions documented")
        else r2

/- ===================== check_validation_section (297-313) ===================== -/

structure Sec7 where
  hasValidationResult : Bool
  hasValidationTimestamp : Bool
deriving Repr, DecidableEq

def check_validation_section (sec7 : Option Sec7) (res : ValidationResult) : ValidationResult :=
  match sec7 with
  | none => addError res ("Cannot parse Section 7: Validation")
  | some s =>
    let r1 :=
      if ¬ s.hasValidationResult then
        addWarning res ("Validation Result not yet filled")
      else res
    if ¬ s.hasValidationTimestamp then
      addWarning r1 ("Validation Timestamp not yet filled")
    else r1

/- ===================== check_unfilled_placeholders (316-322) ===================== -/

/-- Embedding of `check_unfilled_placeholders` over the list of
`[REQUIRED...]` tokens found in the document.  `list(set(...))[:5]` is
modelled as `dedup` followed by `take 5`. -/
def check_unfilled_placeholders (placeholders : List String)
    (res : ValidationResult) : ValidationResult :=
  if placeholders.isEmpty then res
  else
    let r1 := addError res ("Found " ++ toString placeholders.length ++ " unfilled [REQUIRED] placeholders")
    (placeholders.dedup.take 5).foldl
      (fun r p => addInfo r ("  Placeholder: " ++ p)) r1

/- ===================== check_timestamp_consistency (329-397) =====================

Clock and mtime comparisons are environment facts: each boolean is the
outcome of the corresponding `datetime` comparison in the source. -/

structure TimeFacts where
  dateStr : Option String
  dateParses : Bool
  dateInFuture : Bool
  invocStr : Option String
  invocParses : Bool
  invocInFuture : Bool
  validStr : Option String
  validParses : Bool
  validBeforeInvoc : Bool
  fileOnDisk : Bool
  mtimeBeforeDate : Bool
  mtimeDaysBefore : Nat
deriving Repr, DecidableEq

def check_timestamp_consistency (t : TimeFacts) (res : ValidationResult) : ValidationResult :=
  let r1 :=
    match t.dateStr with
    | some d =>
      if t.dateParses && t.dateInFuture then
        addError res ("FABRICATION INDICATOR: Gate date " ++ d ++ " is in the future")
      else res
    | none => res
  let r2 :=
    if t.invocStr.isSome && t.invocParses && t.invocInFuture then
      addError r1 ("FABRICATION INDICATOR: Invocation timestamp is in the future")
    else r1
  let r3 :=
    if t.validStr.isSome && t.invocStr.isSome && t.validParses && t.invocParses
        && t.validBeforeInvoc then
      addError r2 ("FABRICATION INDICATOR: Validation timestamp is before invocation timestamp")
    else r2
  if t.fileOnDisk && t.dateStr.isSome && t.dateParses && t.mtimeBeforeDate
      && t.mtimeDaysBefore > 7 then
    addWarning r3 ("SUSPICIOUS: File mtime is " ++ toString t.mtimeDaysBefore ++ " days before claimed gate date")
  else r3

/- ===================== check_content_integrity (400-439) ===================== -/

/-- Python `s.strip()[:100]`: the normalised key of one summary. -/
def summaryKey (s : String) : String :=
  pyTake (pyStrip s) 100

def dupSummariesMsg (dups : Nat) : String :=
  "FABRICATION INDICATOR: Multiple agent responses appear identical (" ++ toString dups ++ " duplicates)"

def unknownAgentMsg (agent : String) : String :=
  "FABRICATION INDICATOR: Unknown agent \x27" ++ agent ++ "\x27 in sign-off"

/-- Whether "Agent" occurs in the cell text at some position at least 1: this
is exactly when the name-cell regex `[^|]+Agent[^|]*` (with the surrounding
`\s*`) can match the cell. -/
def nameCellMatches (t : String) : Bool :=
  (firstIdx (t.data.drop 1) ("Agent".data)).isSome

def KNOWN_AGENTS : List String := REQUIRED_AGENTS ++ ["PM-Architect-Agent"]

/-- The `signoff_agents` findall: rows whose value cell is one of the four
sign-off values and whose name cell contains "Agent" after its first
character; the captured group strips to the trimmed name cell. -/
def signoffAgents (signRows : List (String × String)) : List String :=
  (signRows.filter
    (fun r => nameCellMatches r.1 && VALID_SIGNOFF_VALUES.contains r.2)).map (·.1)

/-- The unknown-agent loop body: exact membership in the known-agent list,
then substring matches in either direction. -/
def unknownAgentScan (agents : List String) (res : ValidationResult) : ValidationResult :=
  agents.foldl
    (fun r agent =>
      let agentClean := pyStrip agent
      if ¬ KNOWN_AGENTS.contains agentClean then
        if ¬ KNOWN_AGENTS.any
            (fun known => strContains agentClean known || strContains known agentClean) then
          addError r (unknownAgentMsg agentClean)
        else r
      else r)
    res

/-- Embedding of `check_content_integrity`.  `summaries` are the texts the
summary regex finds in the whole document, `checklistCells` the captured
second cells of numbered table rows, `signRows` the `(name, value)` cells of
the pipe-table rows of the document. -/
def check_content_integrity (summaries checklistCells : List String)
    (signRows : List (String × String)) (res : ValidationResult) : ValidationResult :=
  let r1 :=
    if ¬ summaries.isEmpty then
      let uniq := (summaries.map summaryKey).dedup
      if 2 * uniq.length < summaries.length && summaries.length > 2 then
        addWarning res (dupSummariesMsg (summaries.length - uniq.length))
      else res
    else res
  let r2 :=
    if ¬ checklistCells.isEmpty then
      let uniq := (checklistCells.map (fun c => pyTake (pyStrip c) 50)).dedup
      if 3 * uniq.length < checklistCells.length && checklistCells.length > 5 then
        addWarning r1 ("FABRICATION INDICATOR: Checklist items show low variety (possible copy-paste)")
      else r1
    else r1
  unknownAgentScan (signoffAgents signRows) r2

/- ===================== check_sequential_consistency (442-467) ===================== -/

/-- Embedding of `check_sequential_consistency`: the metadata captures come
from the same regexes as `check_metadata`; `hasInputRef` is the
`phaseN-input-gate` search and `inputGateOnDisk` the `Path(...).exists()`
probe. -/
def check_sequential_consistency (gateType : Option String) (phase stage : Option Nat)
    (hasInputRef inputGateOnDisk : Bool) (res : ValidationResult) : ValidationResult :=
  match gateType, phase, stage with
  | some gt, some ph, some _ =>
    if gt == "Output" then
      if ¬ hasInputRef && ¬ inputGateOnDisk then
        addWarning res ("SEQUENCE WARNING: Phase " ++ toString ph ++ " Output gate has no corresponding Input gate")
      else res
    else res
  | _, _, _ => res

/- ===================== check_git_checkpoint (474-543) ===================== -/

def isHexDigitLower (c : Char) : Bool :=
  ('a' ≤ c && c ≤ 'f') || c.isDigit

/-- The `re.match(r"^[a-f0-9]{7,40}$", h)` format validation. -/
def commitHashFormatOk (h : String) : Bool :=
  7 ≤ h.length && h.length ≤ 40 && h.data.all isHexDigitLower

/-- Embedding of `check_git_checkpoint`: `commitHash` is the first capture of
the four commit patterns (case-insensitive search), `gitProbe` the `git
cat-file` outcome (`none` = git unavailable or timed out, `some ok` = ran
with `ok` telling whether the hash was found). -/
def check_git_checkpoint (gateType : Option String) (phase : Option Nat)
    (commitHash : Option String) (gitProbe : Option Bool)
    (res : ValidationResult) : ValidationResult :=
  match gateType, phase with
  | some gt, some ph =>
    if gt != "Output" || ph < 2 then res
    else
      match commitHash with
      | none =>
        addWarning res ("P2-005: Phase " ++ toString ph ++ " Output gate should reference git checkpoint commit hash")
      | some h =>
        if ¬ commitHashFormatOk h then
          addWarning res ("P2-005: Invalid commit hash format: " ++ h)
        else
          match gitProbe with
          | some true => addInfo res ("P2-005: Git checkpoint verified: " ++ pyTake h 7)
          | some false => addWarning res ("P2-005: Commit hash " ++ pyTake h 7 ++ " not found in git history")
          | none => addInfo res ("P2-005: Git checkpoint referenced: " ++ pyTake h 7)
  | _, _ => res

/- ===================== validate_gate (validate_gate.py 51-105) ===================== -/

/-- The structured view of everything the regex layer extracts from the gate
record document, plus the filesystem/clock facts the anti-fabrication checks
probe.  Each field is documented at the check that consumes it. -/
structure GateDoc where
  meta : MetaFacts
  sec1 : Option Sec1
  sec2 : Option (List (String × RespBlock))
  sec3 : Option Sec3
  sec4 : Option Sec4
  hasConcernStatus : Bool
  sec5 : Option Sec5
  sec6 : Option Sec6
  pmRejectedAnywhere : Bool
  sec7 : Option Sec7
  placeholders : List String
  timeFacts : TimeFacts
  summaries : List String
  checklistCells : List String
  signRows : List (String × String)
  hasInputRef : Bool
  inputGateOnDisk : Bool
  commitHash : Option String
  gitProbe : Option Bool
deriving Repr, DecidableEq

/-- Embedding of `validate_gate`: a read failure returns early with exactly
that one error; otherwise all checks run in source order and validity is
recomputed at the end as `len(result.errors) == 0`. -/
def validate_gate (file_path : String) (fs : FileState) (d : GateDoc) : ValidationResult :=
  match read_file file_path fs with
  | .error e => { valid := false, errors := [e] }
  | .ok content =>
    let r : ValidationResult := { valid := true }
    let r := check_required_sections content r
    let r := check_metadata d.meta r
    let r := check_agent_invocation d.sec1 r
    let r := (check_agent_responses d.sec2 r).1
    let r := check_consolidated_checklist d.sec3 r
    let r := check_unresolved_issues d.sec4 d.hasConcernStatus r
    let r := check_signoffs d.sec5 r
    let r := check_gate_decision d.sec6 d.pmRejectedAnywhere r
    let r := check_validation_section d.sec7 r
    let r := check_unfilled_placeholders d.placeholders r
    let r := check_timestamp_consistency d.timeFacts r
    let r := check_content_integrity d.summaries d.checklistCells d.signRows r
    let r := check_sequential_consistency d.meta.gateType d.meta.phase d.meta.stage
      d.hasInputRef d.inputGateOnDisk r
    let r := check_git_checkpoint d.meta.gateType d.meta.phase d.commitHash d.gitProbe r
    { r with valid := r.errors.isEmpty }

/-- Exit code of `validate_gate.py main` (143): 1 on errors, 2 on warnings
only, 0 otherwise. -/
def validateExitCode (r : ValidationResult) : Nat :=
  if ¬ r.valid then 1 else if ¬ r.warnings.isEmpty then 2 else 0

/- ===================== gate_workflow.py ===================== -/

/-- One entry of the `result["steps"]` list: its `step`, `status`, `message`
keys, plus any extra list-valued detail key (`alerts`, `errors`,
`failed_items`, `anomalies`, `issues`, `signature`). -/
structure StepRec where
  step : String
  status : String
  message : String
  detail : List String := []
deriving Repr, DecidableEq

/-- One entry of `result["actions_required"]`. -/
structure ActionReq where
  action : String
  command : Option String := none
  message : Option String := none
  items : List String := []
  expires_at : Option String := none
deriving Repr, DecidableEq

/-- One auto-check result dict (`execute_auto_checks`). -/
structure CheckResult where
  id : String
  desc : String
  status : String
  message : String
deriving Repr, DecidableEq

/-- One checklist item from `gate_checklists.get_checklist`. -/
structure ChecklistItem where
  id : String
  desc : String
  auto : Bool
  check : String
deriving Repr, DecidableEq

/-- The `result` dict built by `run_gate_workflow`. -/
structure WorkflowResult where
  stage : Nat
  phase : Nat
  gate_type : String
  steps : List StepRec
  status : String
  can_proceed : Bool
  actions_required : List ActionReq
  checklist_results : List CheckResult
  relevant_memories : List String
deriving Repr, DecidableEq

/-- Return shape of `check_blocking_alerts` / `alert_manager.check_phase_transition`. -/
structure AlertStatus where
  can_proceed : Bool
  status : String
  message : String
  alerts : List String
deriving Repr, DecidableEq

/-- Parsed content of a sign-off record file (`stageN-phaseM-type-signoff.json`):
whether `json.loads` succeeded, whether `status == "VERIFIED"`, and the
`token` / timestamps fields. -/
structure SignoffRec where
  parseOk : Bool
  statusVerified : Bool
  verified_at : Option String := none
  token : Option String := none
  expires_at : Option String := none
deriving Repr, DecidableEq

/-- Return dict of `check_signoff_status`.  `hasTokenKey` records whether the
dict carries a "token" key (the source tests `"token" in signoff_status`,
which is true in the pending-verification branch even when the record's token
is null). -/
structure SignoffInfo where
  required : Bool
  verified : Bool
  message : String
  hasTokenKey : Bool := false
  token : Option String := none
  expires_at : Option String := none
  verified_at : Option String := none
deriving Repr, DecidableEq

/-- Status/message pair returned by one external probe (`_check_*`,
`execute_super_ai_audit`, `check_memory_service_health`). -/
structure ProbeRes where
  status : String
  message : String
deriving Repr, DecidableEq

/-- Return dict of `query_relevant_memories`. -/
structure MemQueryRes where
  status : String
  count : Nat
  message : String
  memories : List String
deriving Repr, DecidableEq

/-- One anomaly from `anomaly_detector.scan_stage_phase`. -/
structure AnomalyRec where
  severity : String
  descr : String
deriving Repr, DecidableEq

/-- Return dict of `memory_checkpoint.check_gate_memory_requirements`. -/
structure MemChk where
  passed : Bool
  lessons_found : Nat
  min_required : Nat
  issues : List String
deriving Repr, DecidableEq

/-- Environment backing the gate-record-validation step: the
`gate_path.exists()` probe, whether `from validate_gate import validate_gate`
succeeds, and the file/parse state `validate_gate` itself runs on. -/
structure GateFileEnv where
  onDisk : Bool
  importOk : Bool
  fs : FileState
  doc : GateDoc

/-- The external world of one `run_gate_workflow` invocation: every
collaborator call's outcome, in the order the steps consume them.  `none`
models an ImportError / unavailable collaborator where the source degrades to
SKIP. -/
structure WfEnv where
  alertCheck : Nat → AlertStatus
  checklist : List ChecklistItem
  gitCheckpoint : ProbeRes
  typescriptCheck : ProbeRes
  vitePermissions : ProbeRes
  backendHealthy : ProbeRes
  gateFileEnv : GateFileEnv
  signoffFile : Option SignoffRec
  audit : ProbeRes
  memHealth : ProbeRes
  memQuery : MemQueryRes
  anomalies : Option (List AnomalyRec)
  memCheckpoint : Option MemChk
  secureEventSig : Option String

/-- CLI arguments of `run_gate_workflow`. -/
structure WfArgs where
  stage : Nat
  phase : Nat
  gate_type : String
  gate_file : Option String := none
  skip_signoff : Bool := false
  skip_alerts : Bool := false
  skip_audit : Bool := false
deriving Repr, DecidableEq

/-- Rule: output gates from Phase 2 onwards require user sign-off (484-491). -/
def requires_user_signoff (phase : Nat) (gate_type : String) : Bool :=
  gate_type == "output" && phase ≥ 2

/-- Rule: output gates at phases 1, 3, 5 get the audit (494-500). -/
def requires_super_ai_audit (phase : Nat) (gate_type : String) : Bool :=
  gate_type == "output" && (phase == 1 || phase == 3 || phase == 5)

/-- Embedding of `check_signoff_status` (509-549). -/
def check_signoff_status (_stage phase : Nat) (gate_type : String)
    (file : Option SignoffRec) : SignoffInfo :=
  if ¬ requires_user_signoff phase gate_type then
    { required := false, verified := true,
      message := "User sign-off not required for this gate" }
  else
    match file with
    | none =>
      { required := true, verified := false,
        message := "User sign-off required but not requested yet" }
    | some rec =>
      if ¬ rec.parseOk then
        { required := true, verified := false, message := "Sign-off record corrupted" }
      else if rec.statusVerified then
        { required := true, verified := true, verified_at := rec.verified_at,
          message := "User sign-off verified" }
      else
        { required := true, verified := false, hasTokenKey := true,
          token := rec.token, expires_at := rec.expires_at,
          message := "User sign-off pending verification" }

/-- Dispatch of `execute_auto_checks` on the `check` identifier (196-247):
four identifiers run environment probes, the rest return the source's
constant SKIP results, and an unrecognized identifier yields SKIP with the
"not implemented yet" message. -/
def probeFor (env : WfEnv) (name : String) : ProbeRes :=
  if name == "git_checkpoint_exists" then env.gitCheckpoint
  else if name == "tests_pass" then
    { status := "SKIP", message := "Run \x27npm run test\x27 manually to verify" }
  else if name == "coverage_threshold" then
    { status := "SKIP", message := "Run \x27npm run test:coverage\x27 manually to verify >= 70%" }
  else if name == "typescript_compiles" then env.typescriptCheck
  else if name == "coverage_not_decreased" then
    { status := "SKIP", message := "Coverage regression check requires manual verification" }
  else if name == "vite_permissions" then env.vitePermissions
  else if name == "backend_healthy" then env.backendHealthy
  else if name == "e2e_tests_pass" then
    { status := "SKIP", message := "Run \x27npm run test:e2e\x27 manually for E2E verification" }
  else if name == "bundle_size" then
    { status := "SKIP", message := "Run \x27npm run build\x27 and check bundle size <= 60KB" }
  else if name == "quality_checks" then
    { status := "SKIP", message := "Quality checks require manual verification" }
  else
    { status := "SKIP", message := "Check \x27" ++ name ++ "\x27 not implemented yet" }

def execute_auto_checks (env : WfEnv) (checklist : List ChecklistItem) : List CheckResult :=
  (checklist.filter (·.auto)).map
    (fun item =>
      let p := probeFor env item.check
      { id := item.id, desc := item.desc, status := p.status, message := p.message })

def pushStep (r : WorkflowResult) (s : StepRec) : WorkflowResult :=
  { r with steps := r.steps ++ [s] }

def pushAction (r : WorkflowResult) (a : ActionReq) : WorkflowResult :=
  { r with actions_required := r.actions_required ++ [a] }

/-- The fresh `result` dict (590-601). -/
def initResult (a : WfArgs) : WorkflowResult :=
  { stage := a.stage, phase := a.phase, gate_type := a.gate_type,
    steps := [], status := "PASS", can_proceed := true,
    actions_required := [], checklist_results := [], relevant_memories := [] }

/-- Step 0: blocking-alert check (604-641). -/
def step0_alert_check (a : WfArgs) (env : WfEnv) (r : WorkflowResult) : WorkflowResult :=
  if a.skip_alerts then
    pushStep r { step := "alert_check", status := "SKIP",
                 message := "Alert check skipped (testing mode)" }
  else
    let nextPhase := if a.gate_type == "output" then a.phase + 1 else a.phase
    let alert := env.alertCheck nextPhase
    if ¬ alert.can_proceed then
      let r := pushStep r { step := "alert_check", status := "BLOCKED",
                            message := alert.message, detail := alert.alerts }
      let r := { r with status := "BLOCKED", can_proceed := false }
      pushAction r { action := "resolve_alerts",
                     command := some "python3 .claude-bus/scripts/alert_manager.py list",
                     message := some "Resolve critical alerts before proceeding" }
    else if alert.status == "WARNING" then
      pushStep r { step := "alert_check", status := "WARN", message := alert.message }
    else
      pushStep r { step := "alert_check", status := "PASS", message := "No blocking alerts" }

/-- Step 1: checklist load and auto-execution (644-688).  Failed auto-checks
are recorded but deliberately do not touch `status` or `can_proceed` (the
assignments are commented out in the source). -/
def step1_checklist (env : WfEnv) (r : WorkflowResult) : WorkflowResult :=
  let checklist := env.checklist
  if checklist.isEmpty then
    pushStep r { step := "checklist_auto_verify", status := "SKIP",
                 message := "No checklist defined for this gate" }
  else
    let checkResults := execute_auto_checks env checklist
    let r := { r with checklist_results := checkResults }
    let passed := (checkResults.filter (·.status == "PASS")).length
    let failed := (checkResults.filter (·.status == "FAIL")).length
    let skipped := (checkResults.filter (fun c => c.status == "SKIP" || c.status == "WARN")).length
    let r :=
      if failed > 0 then
        pushStep r { step := "checklist_auto_verify", status := "FAIL",
                     message := "Auto-checks: " ++ toString passed ++ " passed, "
                       ++ toString failed ++ " failed, " ++ toString skipped ++ " skipped",
                     detail := ((checkResults.filter (·.status == "FAIL")).map (·.id)) }
      else
        pushStep r { step := "checklist_auto_verify", status := "PASS",
                     message := "Auto-checks: " ++ toString passed ++ " passed, "
                       ++ toString skipped ++ " skipped/manual" }
    let manual := checklist.filter (fun i => ¬ i.auto)
    if manual.isEmpty then r
    else
      pushAction r { action := "manual_checklist",
                     message := some (toString manual.length ++ " items require manual verification"),
                     items := manual.map (·.desc) }

/-- Step 2: gate-record validation (691-734). -/
def step2_validate (a : WfArgs) (env : WfEnv) (r : WorkflowResult) : WorkflowResult :=
  match a.gate_file with
  | none =>
    pushStep r { step := "validate_gate_record", status := "SKIP",
                 message := "No gate file provided" }
  | some gf =>
    if ¬ env.gateFileEnv.onDisk then
      let r := pushStep r { step := "validate_gate_record", status := "FAIL",
                            message := "Gate file not found: " ++ gf }
      { r with status := "FAIL", can_proceed := false }
    else if ¬ env.gateFileEnv.importOk then
      pushStep r { step := "validate_gate_record", status := "SKIP",
                   message := "validate_gate.py not available" }
    else
      let v := validate_gate gf env.gateFileEnv.fs env.gateFileEnv.doc
      if v.valid then
        pushStep r { step := "validate_gate_record", status := "PASS",
                     message := "Gate record validated successfully" }
      else
        let r := pushStep r { step := "validate_gate_record", status := "FAIL",
                              message := "Validation failed with " ++ toString v.errors.length ++ " errors",
                              detail := v.errors.take 5 }
        { r with status := "FAIL", can_proceed := false }

/-- Step 3: user sign-off (737-780). -/
def step3_signoff (a : WfArgs) (env : WfEnv) (r : WorkflowResult) : WorkflowResult :=
  if a.skip_signoff then
    pushStep r { step := "user_signoff", status := "SKIP",
                 message := "Sign-off check skipped (testing mode)" }
  else
    let info := check_signoff_status a.stage a.phase a.gate_type env.signoffFile
    if ¬ info.required then
      pushStep r { step := "user_signoff", status := "NOT_REQUIRED", message := info.message }
    else if info.verified then
      pushStep r { step := "user_signoff", status := "VERIFIED",
                   message := "User sign-off confirmed" }
    else
      let r := pushStep r { step := "user_signoff", status := "PENDING", message := info.message }
      let r := { r with status := "PENDING", can_proceed := false }
      if info.hasTokenKey then
        pushAction r { action := "verify_signoff",
                       command := some ("python3 .claude-bus/scripts/user_signoff.py verify --token "
                         ++ (info.token.getD "None")),
                       expires_at := info.expires_at }
      else
        pushAction r { action := "request_signoff",
                       command := some ("python3 .claude-bus/scripts/user_signoff.py request --stage "
                         ++ toString a.stage ++ " --phase " ++ toString a.phase
                         ++ " --type " ++ a.gate_type) }

/-- Step 4: Super-AI audit (783-809). -/
def step4_audit (a : WfArgs) (env : WfEnv) (r : WorkflowResult) : WorkflowResult :=
  if a.skip_audit then
    pushStep r { step := "super_ai_audit", status := "SKIP",
                 message := "Super-AI audit skipped (testing mode)" }
  else if requires_super_ai_audit a.phase a.gate_type then
    let ar := env.audit
    let r := pushStep r { step := "super_ai_audit", status := ar.status, message := ar.message }
    if ar.status == "FAIL" then
      pushAction r { action := "review_audit",
                     message := some "Super-AI audit found issues requiring review" }
    else r
  else
    pushStep r { step := "super_ai_audit", status := "NOT_REQUIRED",
                 message := "Super-AI audit not required for this gate" }

/-- Step 5: memory query (812-837). -/
def step5_memory (env : WfEnv) (r : WorkflowResult) : WorkflowResult :=
  if env.memHealth.status == "PASS" then
    let q := env.memQuery
    let r := pushStep r { step := "memory_query", status := q.status, message := q.message }
    if q.count > 0 then
      let r := { r with relevant_memories := q.memories }
      pushAction r { action := "review_memories",
                     message := some ("Review " ++ toString q.count
                       ++ " related memories from previous stages"),
                     items := q.memories.take 3 }
    else r
  else
    pushStep r { step := "memory_query", status := env.memHealth.status,
                 message := env.memHealth.message }

/-- Step 6: anomaly detection (840-876). -/
def step6_anomaly (env : WfEnv) (r : WorkflowResult) : WorkflowResult :=
  match env.anomalies with
  | none =>
    pushStep r { step := "anomaly_detection", status := "SKIP",
                 message := "anomaly_detector.py not available" }
  | some al =>
    let critical := (al.filter (·.severity == "CRITICAL")).length
    let high := (al.filter (·.severity == "HIGH")).length
    if critical > 0 then
      let r := pushStep r { step := "anomaly_detection", status := "FAIL",
                            message := "Detected " ++ toString critical ++ " CRITICAL anomalies",
                            detail := ((al.filter (·.severity == "CRITICAL")).map (·.descr)).take 3 }
      { r with can_proceed := false, status := "FAIL" }
    else if high > 0 then
      pushStep r { step := "anomaly_detection", status := "WARN",
                   message := "Detected " ++ toString high
                     ++ " HIGH severity anomalies (review recommended)",
                   detail := ((al.filter (·.severity == "HIGH")).map (·.descr)).take 3 }
    else
      pushStep r { step := "anomaly_detection", status := "PASS",
                   message := "No critical anomalies detected" }

/-- Step 7: memory checkpoint (879-915). -/
def step7_memcheck (a : WfArgs) (env : WfEnv) (r : WorkflowResult) : WorkflowResult :=
  if a.gate_type == "output" && a.phase ≥ 2 then
    match env.memCheckpoint with
    | none =>
      pushStep r { step := "memory_checkpoint", status := "SKIP",
                   message := "memory_checkpoint.py not available" }
    | some m =>
      if m.passed then
        pushStep r { step := "memory_checkpoint", status := "PASS",
                     message := "Lessons stored: " ++ toString m.lessons_found ++ "/"
                       ++ toString m.min_required ++ " required" }
      else
        let r := pushStep r { step := "memory_checkpoint", status := "WARN",
                              message := "Missing lessons: " ++ toString m.lessons_found ++ "/"
                                ++ toString m.min_required,
                              detail := m.issues }
        pushAction r { action := "store_lessons",
                       command := some "docker exec gpt-oss-backend python scripts/memory_cli.py store --help",
                       message := some "Store lessons to memory before gate passage" }
  else
    pushStep r { step := "memory_checkpoint", status := "NOT_REQUIRED",
                 message := "Memory checkpoint not required for this gate" }

/-- Step 8: secure event log (918-947). -/
def step8_event (env : WfEnv) (r : WorkflowResult) : WorkflowResult :=
  match env.secureEventSig with
  | some sig =>
    pushStep r { step := "secure_event_log", status := "PASS",
                 message := "Event logged with HMAC signature", detail := [sig] }
  | none =>
    pushStep r { step := "secure_event_log", status := "SKIP",
                 message := "secure_events.py not available" }

/-- The fixed, ordered step sequence of one `run_gate_workflow` invocation. -/
def workflowSteps (a : WfArgs) (env : WfEnv) : List (WorkflowResult → WorkflowResult) :=
  [step0_alert_check a env, step1_checklist env, step2_validate a env,
   step3_signoff a env, step4_audit a env, step5_memory env,
   step6_anomaly env, step7_memcheck a env, step8_event env]

/-- The `result` after the first `n` steps of the workflow have run. -/
def runPrefix (a : WfArgs) (env : WfEnv) (n : Nat) : WorkflowResult :=
  ((workflowSteps a env).take n).foldl (fun r f => f r) (initResult a)

/-- Embedding of `run_gate_workflow` (556-949): the full step sequence. -/
def run_gate_workflow (a : WfArgs) (env : WfEnv) : WorkflowResult :=
  (workflowSteps a env).foldl (fun r f => f r) (initResult a)

/-- Exit-code mapping of `main` (1083-1091). -/
def workflowExitCode (r : WorkflowResult) : Nat :=
  if r.status == "PASS" then 0
  else if r.status == "PENDING" then 2
  else if r.status == "BLOCKED" then 3
  else 1

/- ===================== shared fixtures and helper lemmas ===================== -/

/-- The fresh `ValidationResult(valid=True)` a validation run starts from. -/
def freshRes : ValidationResult := { valid := true }

/-- A document none of whose regexes matched: every extraction empty. -/
def emptyTimeFacts : TimeFacts :=
  { dateStr := none, dateParses := false, dateInFuture := false,
    invocStr := none, invocParses := false, invocInFuture := false,
    validStr := none, validParses := false, validBeforeInvoc := false,
    fileOnDisk := false, mtimeBeforeDate := false, mtimeDaysBefore := 0 }

def emptyMeta : MetaFacts :=
  { stage := none, phase := none, gateType := none, dateStr := none,
    dateParses := false, dateOverYearFuture := false, statusFieldOk := false }

def emptyDoc : GateDoc :=
  { meta := emptyMeta, sec1 := none, sec2 := none, sec3 := none, sec4 := none,
    hasConcernStatus := false, sec5 := none, sec6 := none,
    pmRejectedAnywhere := false, sec7 := none, placeholders := [],
    timeFacts := emptyTimeFacts, summaries := [], checklistCells := [],
    signRows := [], hasInputRef := false, inputGateOnDisk := false,
    commitHash := none, gitProbe := none }

theorem addError_mem_self (r : ValidationResult) (e : String) : e ∈ (addError r e).errors := by
  simp [addError]

theorem addError_mem_of_mem (r : ValidationResult) (e x : String) (h : x ∈ r.errors) :
    x ∈ (addError r e).errors := by
  simp [addError, h]

theorem addWarning_errors (r : ValidationResult) (w : String) :
    (addWarning r w).errors = r.errors := rfl

theorem addInfo_errors (r : ValidationResult) (i : String) :
    (addInfo r i).errors = r.errors := rfl

theorem two_le_length_of_mem_ne {α} {l : List α} {x y : α}
    (hx : x ∈ l) (hy : y ∈ l) (hne : x ≠ y) : 2 ≤ l.length := by
  classical
  have hy' : y ∈ l.erase x := by
    rw [List.mem_erase_of_ne (Ne.symm hne)]
    exact hy
  have h1 : 0 < (l.erase x).length := List.length_pos.mpr (List.ne_nil_of_mem hy')
  have h2 : (l.erase x).length = l.length - 1 := List.length_erase_of_mem hx
  omega

theorem string_data_append (s t : String) : (s ++ t).data = s.data ++ t.data := rfl

theorem string_ne_of_head_ne {s t : String} (h : s.data.head? ≠ t.data.head?) : s ≠ t :=
  fun e => h (congrArg (fun u => u.data.head?) e)

/- ===================== C1 ===================== -/

/-- C1: for every input, `validate_gate` returns a result whose `valid`
field is true exactly when its `errors` list is empty; since `valid` is a
function of `errors` alone, the `warnings` and `info` lists never affect
it.  The early-return read-failure path produces a one-element error list
with `valid = false`, and the normal path recomputes
`valid := len(errors) == 0` at the end. -/
theorem C1_valid_iff_errors_empty (file_path : String) (fs : FileState) (d : GateDoc) :
    (validate_gate file_path fs d).valid = (validate_gate file_path fs d).errors.isEmpty := by
  unfold validate_gate
  cases read_file file_path fs <;> simp

/- ===================== C9 ===================== -/

/-- C9: for a nonexistent file, an oversized file, a non-UTF-8 file, or an
empty/whitespace-only file, `validate_gate` returns (without raising) a
result with `valid = false`, exactly one error and empty warnings/info: the
early return fires before any per-section content check runs. -/
theorem C9_read_failure_early_return (file_path : String) (fs : FileState) (d : GateDoc)
    (h : fs.onDisk = false ∨ fs.size > MAX_FILE_SIZE ∨ fs.utf8Valid = false
      ∨ pyStrip fs.content = "") :
    ∃ e, read_file file_path fs = .error e ∧
      validate_gate file_path fs d =
        { valid := false, errors := [e], warnings := [], info := [] } := by
  have herr : ∃ e, read_file file_path fs = .error e := by
    unfold read_file
    split_ifs with h1 h2 h3 h4 <;>
      first
        | exact ⟨_, rfl⟩
        | (exfalso; rcases h with h | h | h | h <;> simp_all)
  obtain ⟨e, he⟩ := herr
  refine ⟨e, he, ?_⟩
  unfold validate_gate
  rw [he]

/-- Witness for C9 at a concrete nonexistent file. -/
theorem C9_witness :
    ((⟨false, 10, true, "x"⟩ : FileState).onDisk = false ∨
      (⟨false, 10, true, "x"⟩ : FileState).size > MAX_FILE_SIZE ∨
      (⟨false, 10, true, "x"⟩ : FileState).utf8Valid = false ∨
      pyStrip (⟨false, 10, true, "x"⟩ : FileState).content = "") ∧
    ∃ e, read_file "gates/missing.md" ⟨false, 10, true, "x"⟩ = .error e ∧
      validate_gate "gates/missing.md" ⟨false, 10, true, "x"⟩ emptyDoc =
        { valid := false, errors := [e], warnings := [], info := [] } :=
  ⟨Or.inl rfl, C9_read_failure_early_return "gates/missing.md" ⟨false, 10, true, "x"⟩ emptyDoc (Or.inl rfl)⟩

/- ===================== C4 ===================== -/

/-- C4 counterexample: for the claim's own concrete input — four
agent-response summaries of which three are byte-identical in their first
100 characters — the duplicate-summary warning does NOT fire: there are 2
distinct normalized summaries, and 2 is not strictly fewer than half of 4,
so `check_content_integrity` emits no warning at all on this input. -/
theorem C4_counterexample :
    (check_content_integrity ["aaaa", "aaaa", "aaaa", "bbbb"] [] [] freshRes).warnings = [] := by
  decide

/-- C4 amended: the duplicate-summary warning fires exactly when the number
of distinct normalized 100-character summary keys is strictly fewer than
half the number of summaries and there are more than 2 summaries.  In
particular, for 4 summaries of which 3 are byte-identical the warning does
NOT fire (2 distinct is not fewer than half of 4); for 4 identical
summaries it fires; for 4 distinct summaries it does not. -/
theorem C4_duplicate_summary_rule :
    (∀ summaries : List String,
      (check_content_integrity summaries [] [] freshRes).warnings =
        (if 2 * ((summaries.map summaryKey).dedup).length < summaries.length
            ∧ summaries.length > 2
         then [dupSummariesMsg (summaries.length - ((summaries.map summaryKey).dedup).length)]
         else []))
    ∧ (check_content_integrity ["aaaa", "aaaa", "aaaa", "bbbb"] [] [] freshRes).warnings = []
    ∧ (check_content_integrity ["aaaa", "aaaa", "aaaa", "aaaa"] [] [] freshRes).warnings
        = [dupSummariesMsg 3]
    ∧ (check_content_integrity ["a1", "b2", "c3", "d4"] [] [] freshRes).warnings = [] := by
  refine ⟨?_, by decide, by decide, by decide⟩
  intro s
  by_cases h2 : s.length > 2
  · have hne : s.isEmpty = false := by
      cases s with
      | nil => simp at h2
      | cons a t => rfl
    by_cases h1 : 2 * ((s.map summaryKey).dedup).length < s.length
    · simp [check_content_integrity, hne, h1, h2, signoffAgents, unknownAgentScan,
        addWarning, freshRes]
    · simp [check_content_integrity, hne, h1, h2, signoffAgents, unknownAgentScan,
        addWarning, freshRes]
  · have hcond : ¬ (2 * ((s.map summaryKey).dedup).length < s.length ∧ s.length > 2) :=
      fun hc => h2 hc.2
    by_cases hne : s.isEmpty
    · simp [check_content_integrity, hne, hcond, h2, signoffAgents, unknownAgentScan, freshRes]
    · simp [check_content_integrity, hne, hcond, h2, signoffAgents, unknownAgentScan, freshRes]

/- ===================== C7 ===================== -/

/-- C7: whenever Section 6 parses with Decision PASS and the
PM-Architect-Agent REJECTED sign-off row occurs anywhere in the document,
`check_gate_decision` appends the inconsistency error. -/
theorem C7_pass_with_pm_rejected (s : Sec6) (pm : Bool) (res : ValidationResult)
    (hd : s.decision = some "PASS") (hpm : pm = true) :
    inconsistencyMsg ∈ (check_gate_decision (some s) pm res).errors := by
  subst hpm
  obtain ⟨dec, b1, b2⟩ := s
  dsimp only at hd
  subst hd
  cases b1 <;> cases b2 <;>
    simp [check_gate_decision, addError, addWarning, VALID_GATE_DECISIONS]

/-- Witness for C7 at a concrete Section 6 with Decision PASS and a
rejected coordinating sign-off. -/
theorem C7_witness :
    (⟨some "PASS", false, false⟩ : Sec6).decision = some "PASS" ∧
    inconsistencyMsg ∈ (check_gate_decision (some ⟨some "PASS", false, false⟩) true freshRes).errors :=
  ⟨rfl, C7_pass_with_pm_rejected ⟨some "PASS", false, false⟩ true freshRes rfl rfl⟩

/- ===================== C10 ===================== -/

theorem firstIdx_isSome_cons (c : Char) (cs pat : List Char)
    (h : (firstIdx cs pat).isSome = true) : (firstIdx (c :: cs) pat).isSome = true := by
  unfold firstIdx
  split_ifs with hp
  · rfl
  · simpa using h

theorem nameCellMatches_strContains (t : String) (h : nameCellMatches t = true) :
    strContains t "Agent" = true := by
  unfold nameCellMatches at h
  unfold strContains
  cases hd : t.data with
  | nil =>
    rw [hd] at h
    exact absurd h (by decide)
  | cons c cs =>
    rw [hd] at h
    simp only [List.drop_succ_cons, List.drop_zero] at h
    exact firstIdx_isSome_cons c cs _ h

theorem signoffAgents_filter_agent (rows : List (String × String)) :
    signoffAgents (rows.filter (fun r => strContains r.1 "Agent")) = signoffAgents rows := by
  unfold signoffAgents
  rw [List.filter_filter]
  congr 1
  apply List.filter_congr
  intro r _
  cases hn : nameCellMatches r.1 with
  | false => simp [hn]
  | true => simp [hn, nameCellMatches_strContains r.1 hn]

/-- C10: the unknown-agent-in-sign-off check only examines sign-off rows
whose name cell contains the substring "Agent": removing every row whose
name does not contain "Agent" leaves the result of
`check_content_integrity` unchanged, so such rows never produce an
"unknown agent" error, however far their name is from any known agent. -/
theorem C10_non_agent_rows_ignored (summaries checklistCells : List String)
    (signRows : List (String × String)) (res : ValidationResult) :
    check_content_integrity summaries checklistCells
        (signRows.filter (fun r => strContains r.1 "Agent")) res =
      check_content_integrity summaries checklistCells signRows res := by
  unfold check_content_integrity
  rw [signoffAgents_filter_agent]

/- ===================== C5 / C6 machinery ===================== -/

theorem foldl_invocationStep_fst (rows : List (String × Bool)) :
    ∀ (agents : List String) (p : Nat × ValidationResult),
      (agents.foldl (invocationStep rows) p).1
        = p.1 + (agents.filter (fun a => lookupRow rows a == some true)).length := by
  intro agents
  induction agents with
  | nil => intro p; simp
  | cons a as ih =>
    intro p
    cases hl : lookupRow rows a with
    | none =>
      simp only [List.foldl_cons, List.filter_cons, hl]
      rw [ih]
      simp [invocationStep, hl]
    | some b =>
      cases b with
      | true =>
        simp only [List.foldl_cons, List.filter_cons, hl]
        rw [ih]
        simp [invocationStep, hl]
        omega
      | false =>
        simp only [List.foldl_cons, List.filter_cons, hl]
        rw [ih]
        simp [invocationStep, hl]

theorem foldl_invocationStep_errors_mono (rows : List (String × Bool)) :
    ∀ (agents : List String) (p : Nat × ValidationResult) (x : String),
      x ∈ p.2.errors → x ∈ (agents.foldl (invocationStep rows) p).2.errors := by
  intro agents
  induction agents with
  | nil => intro p x hx; simpa using hx
  | cons a as ih =>
    intro p x hx
    simp only [List.foldl_cons]
    apply ih
    unfold invocationStep
    cases hl : lookupRow rows a with
    | none => exact addError_mem_of_mem _ _ _ hx
    | some b => cases b <;> simpa using hx

theorem foldl_invocationStep_notListed (rows : List (String × Bool)) :
    ∀ (agents : List String) (p : Nat × ValidationResult) (a : String),
      a ∈ agents → lookupRow rows a = none →
      notListedMsg a ∈ (agents.foldl (invocationStep rows) p).2.errors := by
  intro agents
  induction agents with
  | nil => intro p a ha; simp at ha
  | cons b bs ih =>
    intro p a ha hnone
    simp only [List.foldl_cons]
    rcases List.mem_cons.mp ha with rfl | hmem
    · apply foldl_invocationStep_errors_mono
      unfold invocationStep
      rw [hnone]
      exact addError_mem_self _ _
    · exact ih _ a hmem hnone

theorem invocationScan_fst (rows : List (String × Bool)) (r1 : ValidationResult) :
    (invocationScan REQUIRED_AGENTS rows r1).1 = invokedCount rows := by
  unfold invocationScan invokedCount
  rw [foldl_invocationStep_fst]
  simp

theorem mem_blocking_core (rows : List (String × Bool)) (r1 : ValidationResult) (boxes : Nat)
    (h : invokedCount rows < 6) :
    blockingMsg (invokedCount rows) ∈
      (if boxes > 0 then
        addError
          (if (invocationScan REQUIRED_AGENTS rows r1).1 < 6 then
            addError (invocationScan REQUIRED_AGENTS rows r1).2
              (blockingMsg (invocationScan REQUIRED_AGENTS rows r1).1)
          else (invocationScan REQUIRED_AGENTS rows r1).2)
          ("Unchecked verification items in Section 1 (" ++ toString boxes ++ " items)")
      else
        (if (invocationScan REQUIRED_AGENTS rows r1).1 < 6 then
            addError (invocationScan REQUIRED_AGENTS rows r1).2
              (blockingMsg (invocationScan REQUIRED_AGENTS rows r1).1)
          else (invocationScan REQUIRED_AGENTS rows r1).2)).errors := by
  rw [invocationScan_fst]
  rw [if_pos h]
  split_ifs with hb
  · exact addError_mem_of_mem _ _ _ (addError_mem_self _ _)
  · exact addError_mem_self _ _

theorem mem_notListed_core (rows : List (String × Bool)) (r1 : ValidationResult) (boxes : Nat)
    (a : String) (hmem : a ∈ REQUIRED_AGENTS) (hnone : lookupRow rows a = none) :
    notListedMsg a ∈
      (if boxes > 0 then
        addError
          (if (invocationScan REQUIRED_AGENTS rows r1).1 < 6 then
            addError (invocationScan REQUIRED_AGENTS rows r1).2
              (blockingMsg (invocationScan REQUIRED_AGENTS rows r1).1)
          else (invocationScan REQUIRED_AGENTS rows r1).2)
          ("Unchecked verification items in Section 1 (" ++ toString boxes ++ " items)")
      else
        (if (invocationScan REQUIRED_AGENTS rows r1).1 < 6 then
            addError (invocationScan REQUIRED_AGENTS rows r1).2
              (blockingMsg (invocationScan REQUIRED_AGENTS rows r1).1)
          else (invocationScan REQUIRED_AGENTS rows r1).2)).errors := by
  have h1 : notListedMsg a ∈ (invocationScan REQUIRED_AGENTS rows r1).2.errors :=
    foldl_invocationStep_notListed rows REQUIRED_AGENTS (0, r1) a hmem hnone
  split_ifs with hb h6 h6 <;>
    first
      | exact addError_mem_of_mem _ _ _ (addError_mem_of_mem _ _ _ h1)
      | exact addError_mem_of_mem _ _ _ h1
      | exact h1

theorem check_agent_invocation_blocking_mem (s : Sec1) (res : ValidationResult)
    (h : invokedCount s.rows < 6) :
    blockingMsg (invokedCount s.rows) ∈ (check_agent_invocation (some s) res).errors := by
  rcases s with ⟨ts, tsv, rows, boxes⟩
  unfold check_agent_invocation
  dsimp only at h ⊢
  cases ts with
  | none => exact mem_blocking_core rows _ boxes h
  | some t =>
    cases tsv <;> simp only [Bool.false_eq_true, if_false, if_true] <;>
      exact mem_blocking_core rows _ boxes h

theorem check_agent_invocation_notListed_mem (s : Sec1) (res : ValidationResult) (a : String)
    (hmem : a ∈ REQUIRED_AGENTS) (hnone : lookupRow s.rows a = none) :
    notListedMsg a ∈ (check_agent_invocation (some s) res).errors := by
  rcases s with ⟨ts, tsv, rows, boxes⟩
  unfold check_agent_invocation
  dsimp only at hnone ⊢
  cases ts with
  | none => exact mem_notListed_core rows _ boxes a hmem hnone
  | some t =>
    cases tsv <;> simp only [Bool.false_eq_true, if_false, if_true] <;>
      exact mem_notListed_core rows _ boxes a hmem hnone

theorem notListedMsg_head (x : String) : (notListedMsg x).data.head? = some 'A' := by
  unfold notListedMsg
  rw [string_data_append, string_data_append]
  have h : ("Agent \x27" : String).data = 'A' :: ("gent \x27" : String).data := by decide
  rw [h]
  simp

theorem blockingMsg_head (n : Nat) : (blockingMsg n).data.head? = some 'B' := by
  unfold blockingMsg
  rw [string_data_append, string_data_append]
  have h : ("BLOCKING: Only " : String).data = 'B' :: ("LOCKING: Only " : String).data := by decide
  rw [h]
  simp

theorem notListed_ne_blocking (x : String) (n : Nat) : notListedMsg x ≠ blockingMsg n := by
  apply string_ne_of_head_ne
  rw [notListedMsg_head, blockingMsg_head]
  simp

/-- Removal of the invocation-table row(s) of one agent. -/
def eraseAgentRows (rows : List (String × Bool)) (agent : String) : List (String × Bool) :=
  rows.filter (fun r => !(r.1 == agent))

theorem lookupRow_eraseAgentRows (rows : List (String × Bool)) (agent : String) :
    lookupRow (eraseAgentRows rows agent) agent = none := by
  unfold lookupRow eraseAgentRows
  rw [List.find?_eq_none.mpr]
  · rfl
  · intro x hx
    have := (List.mem_filter.mp hx).2
    simpa using this

theorem filter_length_lt_of_mem_false {α : Type} (p : α → Bool) (l : List α) (x : α)
    (hx : x ∈ l) (hp : p x = false) : (l.filter p).length < l.length := by
  induction l with
  | nil => simp at hx
  | cons b bs ih =>
    rcases List.mem_cons.mp hx with rfl | hmem
    · have hle := List.length_filter_le p bs
      simp only [List.filter_cons, hp, Bool.false_eq_true, if_false, List.length_cons]
      omega
    · have hlt := ih hmem
      simp only [List.filter_cons, List.length_cons]
      cases hb : p b
      · simp only [Bool.false_eq_true, if_false]
        omega
      · simp only [if_true, List.length_cons]
        omega

theorem invokedCount_erase_lt (rows : List (String × Bool)) (a : String)
    (ha : a ∈ REQUIRED_AGENTS) : invokedCount (eraseAgentRows rows a) < 6 := by
  have hp : (lookupRow (eraseAgentRows rows a) a == some true) = false := by
    rw [lookupRow_eraseAgentRows]
    rfl
  have hlt :=
    filter_length_lt_of_mem_false
      (fun b => lookupRow (eraseAgentRows rows a) b == some true) REQUIRED_AGENTS a ha hp
  have hlen : REQUIRED_AGENTS.length = 6 := by decide
  unfold invokedCount
  omega

/- ===================== C5 ===================== -/

/-- C5: whenever Section 1 parses and strictly fewer than 6 required agents
have a YES invocation-table row, `check_agent_invocation` appends the
blocking "Only N/6 agents invoked" error, independently of which agents are
absent or marked NO. -/
theorem C5_blocking_on_partial_invocation (s : Sec1) (res : ValidationResult)
    (h : invokedCount s.rows < 6) :
    blockingMsg (invokedCount s.rows) ∈ (check_agent_invocation (some s) res).errors :=
  check_agent_invocation_blocking_mem s res h

/-- Witness for C5: a Section 1 whose table lists a single agent with YES. -/
theorem C5_witness :
    invokedCount ([("Backend-Agent", true)] : List (String × Bool)) < 6 ∧
    blockingMsg (invokedCount ([("Backend-Agent", true)] : List (String × Bool))) ∈
      (check_agent_invocation
        (some ⟨some "2025-12-14T10:00:00", true, [("Backend-Agent", true)], 0⟩) freshRes).errors :=
  ⟨by decide,
    C5_blocking_on_partial_invocation
      ⟨some "2025-12-14T10:00:00", true, [("Backend-Agent", true)], 0⟩ freshRes (by decide)⟩

/- ===================== C6 ===================== -/

/-- C6: starting from a Section 1 whose invocation table lists every one of
the 6 required agents, removing the row(s) of any single required agent
yields at least two errors: the "not listed in invocation table" error for
that agent and the blocking "Only N/6 agents invoked" error. -/
theorem C6_remove_row_two_errors (s : Sec1) (res : ValidationResult) (a : String)
    (ha : a ∈ REQUIRED_AGENTS)
    (hall : ∀ b ∈ REQUIRED_AGENTS, (lookupRow s.rows b).isSome = true) :
    notListedMsg a ∈
        (check_agent_invocation (some { s with rows := eraseAgentRows s.rows a }) res).errors ∧
    blockingMsg (invokedCount (eraseAgentRows s.rows a)) ∈
        (check_agent_invocation (some { s with rows := eraseAgentRows s.rows a }) res).errors ∧
    2 ≤ (check_agent_invocation (some { s with rows := eraseAgentRows s.rows a }) res).errors.length := by
  have h1 : notListedMsg a ∈
      (check_agent_invocation (some { s with rows := eraseAgentRows s.rows a }) res).errors :=
    check_agent_invocation_notListed_mem _ res a ha (lookupRow_eraseAgentRows s.rows a)
  have h2 : blockingMsg (invokedCount (eraseAgentRows s.rows a)) ∈
      (check_agent_invocation (some { s with rows := eraseAgentRows s.rows a }) res).errors :=
    check_agent_invocation_blocking_mem _ res (invokedCount_erase_lt s.rows a ha)
  exact ⟨h1, h2, two_le_length_of_mem_ne h1 h2 (notListed_ne_blocking a _)⟩

/-- Witness for C6: a full six-agent YES table with the QA-Agent row removed. -/
theorem C6_witness :
    ("QA-Agent" ∈ REQUIRED_AGENTS) ∧
    (∀ b ∈ REQUIRED_AGENTS,
      (lookupRow ([("Backend-Agent", true), ("Frontend-Agent", true), ("QA-Agent", true),
        ("Document-RAG-Agent", true), ("Super-AI-UltraThink-Agent", true),
        ("frontend-debug-agent", true)] : List (String × Bool)) b).isSome = true) ∧
    2 ≤ (check_agent_invocation
        (some { timestamp := some "2025-12-14T10:00:00", timestampValid := true,
                rows := eraseAgentRows
                  ([("Backend-Agent", true), ("Frontend-Agent", true), ("QA-Agent", true),
                    ("Document-RAG-Agent", true), ("Super-AI-UltraThink-Agent", true),
                    ("frontend-debug-agent", true)] : List (String × Bool)) "QA-Agent",
                uncheckedBoxes := 0 }) freshRes).errors.length :=
  ⟨by decide, by decide,
    (C6_remove_row_two_errors
      ⟨some "2025-12-14T10:00:00", true,
        [("Backend-Agent", true), ("Frontend-Agent", true), ("QA-Agent", true),
         ("Document-RAG-Agent", true), ("Super-AI-UltraThink-Agent", true),
         ("frontend-debug-agent", true)], 0⟩ freshRes "QA-Agent" (by decide) (by decide)).2.2⟩

/- ===================== C8 ===================== -/

/-- C8 counterexample: for a concrete document in which the Section 1 header
does not occur, the source's section extraction (`re.search`) yields no
match (`none`), not the string "missing"; only the spec-modelled extractor
`extract_section_spec` yields "missing". -/
theorem C8_counterexample :
    sectionSlice "# Gate Record" "## Section 1: Agent Invocation Evidence" "## Section 2:" = none ∧
    sectionSlice "# Gate Record" "## Section 1: Agent Invocation Evidence" "## Section 2:"
      ≠ some "missing" ∧
    extract_section_spec "# Gate Record" "## Section 1: Agent Invocation Evidence" "## Section 2:"
      = "missing" := by
  refine ⟨by decide, by decide, by decide⟩

/-- C8 amended: when a required section header is not found in the document,
the section-extraction `re.search` yields no match (`none`, not the string
"missing"); the per-section check then reports a "Cannot parse" error and
returns without running that section's checks, which still distinguishes an
absent section from a present-but-empty one. -/
theorem C8_missing_header_yields_none (content : String) (res : ValidationResult)
    (h : strContains content "## Section 1: Agent Invocation Evidence" = false) :
    sectionSlice content "## Section 1: Agent Invocation Evidence" "## Section 2:" = none ∧
    check_agent_invocation none res
      = addError res "Cannot parse Section 1: Agent Invocation Evidence" := by
  constructor
  · unfold strContains at h
    unfold sectionSlice
    cases hf : firstIdx content.data ("## Section 1: Agent Invocation Evidence".data) with
    | none => rfl
    | some i => rw [hf] at h; simp at h
  · rfl

/-- Witness for C8 at a concrete document without the Section 1 header. -/
theorem C8_witness :
    strContains "# Stage 5 notes\n" "## Section 1: Agent Invocation Evidence" = false ∧
    sectionSlice "# Stage 5 notes\n" "## Section 1: Agent Invocation Evidence" "## Section 2:" = none ∧
    check_agent_invocation none freshRes
      = addError freshRes "Cannot parse Section 1: Agent Invocation Evidence" :=
  ⟨by decide,
    (C8_missing_header_yields_none "# Stage 5 notes\n" freshRes (by decide)).1,
    (C8_missing_header_yields_none "# Stage 5 notes\n" freshRes (by decide)).2⟩

/- ===================== workflow step lemmas ===================== -/

/-- A step never resets a false `can_proceed` back to true. -/
def preservesCanFalse (f : WorkflowResult → WorkflowResult) : Prop :=
  ∀ r, r.can_proceed = false → (f r).can_proceed = false

theorem step0_preservesFalse (a : WfArgs) (env : WfEnv) :
    preservesCanFalse (step0_alert_check a env) := by
  intro r h
  unfold step0_alert_check
  split_ifs <;> simp [pushStep, pushAction, h] <;> split_ifs <;> simp

theorem step1_preserve (env : WfEnv) (r : WorkflowResult) :
    (step1_checklist env r).status = r.status ∧
    (step1_checklist env r).can_proceed = r.can_proceed := by
  unfold step1_checklist
  dsimp only
  split_ifs <;> exact ⟨rfl, rfl⟩

theorem step2_preservesFalse (a : WfArgs) (env : WfEnv) :
    preservesCanFalse (step2_validate a env) := by
  intro r h
  unfold step2_validate
  cases a.gate_file with
  | none => simpa [pushStep] using h
  | some gf => dsimp only; split_ifs <;> simp [pushStep, pushAction, h]

theorem step2_none_preserve (a : WfArgs) (env : WfEnv) (r : WorkflowResult)
    (h : a.gate_file = none) :
    (step2_validate a env r).status = r.status ∧
    (step2_validate a env r).can_proceed = r.can_proceed := by
  unfold step2_validate
  rw [h]
  exact ⟨rfl, rfl⟩

theorem step3_preservesFalse (a : WfArgs) (env : WfEnv) :
    preservesCanFalse (step3_signoff a env) := by
  intro r h
  unfold step3_signoff
  dsimp only
  split_ifs <;> simp [pushStep, pushAction, h]

theorem step3_pending (a : WfArgs) (env : WfEnv) (r : WorkflowResult)
    (h1 : a.skip_signoff = false)
    (h2 : requires_user_signoff a.phase a.gate_type = true)
    (h3 : env.signoffFile = none) :
    (step3_signoff a env r).status = "PENDING" ∧
    (step3_signoff a env r).can_proceed = false := by
  unfold step3_signoff check_signoff_status
  rw [h1, h2, h3]
  simp [pushStep, pushAction]

theorem step4_preserve (a : WfArgs) (env : WfEnv) (r : WorkflowResult) :
    (step4_audit a env r).status = r.status ∧
    (step4_audit a env r).can_proceed = r.can_proceed := by
  unfold step4_audit
  dsimp only
  split_ifs <;> exact ⟨rfl, rfl⟩

theorem step5_preserve (env : WfEnv) (r : WorkflowResult) :
    (step5_memory env r).status = r.status ∧
    (step5_memory env r).can_proceed = r.can_proceed := by
  unfold step5_memory
  dsimp only
  split_ifs <;> exact ⟨rfl, rfl⟩

theorem step6_preservesFalse (env : WfEnv) : preservesCanFalse (step6_anomaly env) := by
  intro r h
  unfold step6_anomaly
  cases env.anomalies with
  | none => simpa [pushStep] using h
  | some al => dsimp only; split_ifs <;> simp [pushStep, h]

theorem step6_nocrit_preserve (env : WfEnv) (r : WorkflowResult)
    (h : ((env.anomalies.getD []).filter (fun x => x.severity == "CRITICAL")) = []) :
    (step6_anomaly env r).status = r.status ∧
    (step6_anomaly env r).can_proceed = r.can_proceed := by
  unfold step6_anomaly
  cases ha : env.anomalies with
  | none => exact ⟨rfl, rfl⟩
  | some al =>
    rw [ha] at h
    simp only [Option.getD_some] at h
    dsimp only
    rw [h]
    simp only [List.length_nil]
    split_ifs with hc hh
    · exact absurd hc (by omega)
    · exact ⟨rfl, rfl⟩
    · exact ⟨rfl, rfl⟩

theorem step7_preserve (a : WfArgs) (env : WfEnv) (r : WorkflowResult) :
    (step7_memcheck a env r).status = r.status ∧
    (step7_memcheck a env r).can_proceed = r.can_proceed := by
  unfold step7_memcheck
  split_ifs
  · cases env.memCheckpoint with
    | none => exact ⟨rfl, rfl⟩
    | some m => dsimp only; split_ifs <;> exact ⟨rfl, rfl⟩
  · exact ⟨rfl, rfl⟩

theorem step8_preserve (env : WfEnv) (r : WorkflowResult) :
    (step8_event env r).status = r.status ∧
    (step8_event env r).can_proceed = r.can_proceed := by
  unfold step8_event
  cases env.secureEventSig <;> exact ⟨rfl, rfl⟩

theorem preservesCanFalse_of_preserve {f : WorkflowResult → WorkflowResult}
    (h : ∀ r, (f r).can_proceed = r.can_proceed) : preservesCanFalse f :=
  fun r hr => by rw [h r, hr]

theorem workflowSteps_preserve (a : WfArgs) (env : WfEnv) :
    ∀ f ∈ workflowSteps a env, preservesCanFalse f := by
  intro f hf
  simp only [workflowSteps, List.mem_cons, List.not_mem_nil, or_false] at hf
  rcases hf with rfl | rfl | rfl | rfl | rfl | rfl | rfl | rfl | rfl
  · exact step0_preservesFalse a env
  · exact preservesCanFalse_of_preserve (fun r => (step1_preserve env r).2)
  · exact step2_preservesFalse a env
  · exact step3_preservesFalse a env
  · exact preservesCanFalse_of_preserve (fun r => (step4_preserve a env r).2)
  · exact preservesCanFalse_of_preserve (fun r => (step5_preserve env r).2)
  · exact step6_preservesFalse env
  · exact preservesCanFalse_of_preserve (fun r => (step7_preserve a env r).2)
  · exact preservesCanFalse_of_preserve (fun r => (step8_preserve env r).2)

theorem foldl_preservesCanFalse :
    ∀ (L : List (WorkflowResult → WorkflowResult)),
      (∀ f ∈ L, preservesCanFalse f) →
      ∀ r : WorkflowResult, r.can_proceed = false →
        (L.foldl (fun x f => f x) r).can_proceed = false := by
  intro L
  induction L with
  | nil => intro _ r h; simpa using h
  | cons f fs ih =>
    intro hL r h
    simp only [List.foldl_cons]
    exact ih (fun g hg => hL g (List.mem_cons_of_mem f hg)) (f r)
      (hL f (List.mem_cons_self f fs) r h)

/- ===================== C3 ===================== -/

/-- C3: `can_proceed` is monotone once-false-always-false across the fixed
workflow step sequence: for every invocation (arguments and collaborator
environment) and every pair of step indices i at most j, if the result after
the first i steps has `can_proceed = false`, so does the result after the
first j steps — no later step assigns it back to true. -/
theorem C3_can_proceed_monotone (a : WfArgs) (env : WfEnv) (i j : Nat) (hij : i ≤ j)
    (h : (runPrefix a env i).can_proceed = false) :
    (runPrefix a env j).can_proceed = false := by
  have hsplit : (workflowSteps a env).take j
      = (workflowSteps a env).take i ++ ((workflowSteps a env).take j).drop i := by
    conv_lhs => rw [← List.take_append_drop i ((workflowSteps a env).take j)]
    rw [List.take_take, Nat.min_eq_left hij]
  unfold runPrefix at h ⊢
  rw [hsplit, List.foldl_append]
  apply foldl_preservesCanFalse
  · intro f hf
    exact workflowSteps_preserve a env f
      ((List.take_sublist j (workflowSteps a env)).subset
        ((List.drop_sublist i ((workflowSteps a env).take j)).subset hf))
  · exact h

/- ===================== C2 scenario fixtures ===================== -/

def skipProbe : ProbeRes := { status := "SKIP", message := "probe unavailable" }

/-- CLI arguments of the claim's scenario:
`--stage 5 --phase 2 --type output --skip-audit` (no file). -/
def scenarioArgs : WfArgs :=
  { stage := 5, phase := 2, gate_type := "output", skip_audit := true }

/-- Environment of the claim's scenario: the alert check reports a blocking
critical alert, no sign-off record exists, and every optional collaborator
is unavailable. -/
def scenarioEnv : WfEnv :=
  { alertCheck := fun _ =>
      { can_proceed := false, status := "BLOCKED",
        message := "1 critical alert(s) blocking transition",
        alerts := ["ALERT-001"] },
    checklist := [],
    gitCheckpoint := skipProbe,
    typescriptCheck := skipProbe,
    vitePermissions := skipProbe,
    backendHealthy := skipProbe,
    gateFileEnv :=
      { onDisk := false, importOk := false,
        fs := { onDisk := false, size := 0, utf8Valid := true, content := "" },
        doc := emptyDoc },
    signoffFile := none,
    audit := skipProbe,
    memHealth := { status := "SKIP", message := "memory service down" },
    memQuery := { status := "SKIP", count := 0, message := "not queried", memories := [] },
    anomalies := none,
    memCheckpoint := none,
    secureEventSig := none }

/- ===================== C2 ===================== -/

/-- C2 counterexample: in the claim's exact scenario (stage 5, phase 2,
output gate, audit skipped, blocking critical alert, no sign-off record)
the final status is "PENDING" with exit code 2 — not "BLOCKED" with exit
code 3 — because the later sign-off step unconditionally overwrites the
status text (last-write-wins), even though `can_proceed` stays false. -/
theorem C2_counterexample :
    (run_gate_workflow scenarioArgs scenarioEnv).status = "PENDING" ∧
    (run_gate_workflow scenarioArgs scenarioEnv).can_proceed = false ∧
    workflowExitCode (run_gate_workflow scenarioArgs scenarioEnv) = 2 ∧
    ¬ ((run_gate_workflow scenarioArgs scenarioEnv).status = "BLOCKED") ∧
    ¬ (workflowExitCode (run_gate_workflow scenarioArgs scenarioEnv) = 3) := by
  decide

/-- C2 amended: running the workflow with stage 5, phase 2, gate type
output, audit skipped, alert and sign-off checks enabled, where the alert
check reports a blocking (critical) alert and no sign-off record exists,
produces a result whose `can_proceed` is false and stays false (no later
step, including the sign-off step that reports PENDING, sets it back to
true) — but whose final `status` field is "PENDING" with process exit code
2, because the sign-off step's status write overwrites the alert step's
earlier BLOCKED (last-write-wins), provided no critical anomaly finding
later overwrites the status again. -/
theorem C2_amended_blocked_overwritten_to_pending (env : WfEnv)
    (halert : (env.alertCheck 3).can_proceed = false)
    (hsign : env.signoffFile = none)
    (hanom : ((env.anomalies.getD []).filter (fun x => x.severity == "CRITICAL")) = []) :
    (run_gate_workflow scenarioArgs env).status = "PENDING" ∧
    (run_gate_workflow scenarioArgs env).can_proceed = false ∧
    workflowExitCode (run_gate_workflow scenarioArgs env) = 2 := by
  unfold run_gate_workflow workflowSteps
  simp only [List.foldl_cons, List.foldl_nil]
  have h3 :=
    step3_pending scenarioArgs env
      (step2_validate scenarioArgs env
        (step1_checklist env (step0_alert_check scenarioArgs env (initResult scenarioArgs))))
      rfl (by decide) hsign
  have hfinal : ∀ r : WorkflowResult,
      (step8_event env (step7_memcheck scenarioArgs env (step6_anomaly env
        (step5_memory env (step4_audit scenarioArgs env r))))).status = r.status ∧
      (step8_event env (step7_memcheck scenarioArgs env (step6_anomaly env
        (step5_memory env (step4_audit scenarioArgs env r))))).can_proceed = r.can_proceed := by
    intro r
    have p4 := step4_preserve scenarioArgs env r
    have p5 := step5_preserve env (step4_audit scenarioArgs env r)
    have p6 := step6_nocrit_preserve env
      (step5_memory env (step4_audit scenarioArgs env r)) hanom
    have p7 := step7_preserve scenarioArgs env
      (step6_anomaly env (step5_memory env (step4_audit scenarioArgs env r)))
    have p8 := step8_preserve env
      (step7_memcheck scenarioArgs env (step6_anomaly env
        (step5_memory env (step4_audit scenarioArgs env r))))
    exact ⟨by rw [p8.1, p7.1, p6.1, p5.1, p4.1], by rw [p8.2, p7.2, p6.2, p5.2, p4.2]⟩
  have hst := hfinal (step3_signoff scenarioArgs env
    (step2_validate scenarioArgs env
      (step1_checklist env (step0_alert_check scenarioArgs env (initResult scenarioArgs)))))
  refine ⟨?_, ?_, ?_⟩
  · rw [hst.1, h3.1]
  · rw [hst.2, h3.2]
  · rw [workflowExitCode, hst.1, h3.1]
    decide

/-- Witness for C2's amended statement at the concrete scenario
environment. -/
theorem C2_amended_witness :
    ((scenarioEnv.alertCheck 3).can_proceed = false ∧
      scenarioEnv.signoffFile = none ∧
      ((scenarioEnv.anomalies.getD []).filter (fun x => x.severity == "CRITICAL")) = []) ∧
    (run_gate_workflow scenarioArgs scenarioEnv).status = "PENDING" ∧
    (run_gate_workflow scenarioArgs scenarioEnv).can_proceed = false ∧
    workflowExitCode (run_gate_workflow scenarioArgs scenarioEnv) = 2 :=
  ⟨⟨rfl, rfl, rfl⟩,
    C2_amended_blocked_overwritten_to_pending scenarioEnv rfl rfl rfl⟩

/-- Witness for C3: in the scenario run, `can_proceed` is false right after
the blocking alert step (prefix length 1) and is still false after all 9
steps. -/
theorem C3_witness :
    (1 ≤ 9 ∧ (runPrefix scenarioArgs scenarioEnv 1).can_proceed = false) ∧
    (runPrefix scenarioArgs scenarioEnv 9).can_proceed = false :=
  ⟨⟨by decide, by decide⟩,
    C3_can_proceed_monotone scenarioArgs scenarioEnv 1 9 (by decide) (by decide)⟩
